import Mathlib

/-!
Verification of the DrawingApp repository (src/drawing_app.py and
src/drawing_app2.py): a tkinter/PIL raster drawing tool.

The two Python files each define a class `DrawingApp`.  All interesting
behaviour lives in pure state updates performed by event handlers; calls
into tkinter dialogs and PIL pixel sampling are modelled at their
interface, with the value the library call returns passed to the handler
as an explicit argument (a cancelled dialog returns `none`, matching
Python's `None` / empty string).

The backing PIL image is modelled as its creation parameters plus the
list of drawing operations applied to it since creation; the tkinter
canvas is modelled as its configured background colour plus the list of
items placed on it in stacking order.
-/

set_option autoImplicit false

namespace DrawingApp

/-- Tkinter colour values are strings: names like `white` or hex `#rrggbb`. -/
abbrev Color := String

/-- A pixel as returned by `PIL.Image.getpixel`: r, g, b components and,
for RGBA images, an alpha component. -/
structure Pixel where
  r : Nat
  g : Nat
  b : Nat
  a : Option Nat
deriving Repr, DecidableEq

/-- PIL image modes used by the program: the constructor builds an RGBA
image, `clear_canvas` and `choose_size` build RGB images. -/
inductive ImageMode where
  | RGB
  | RGBA
deriving Repr, DecidableEq

/-- A line segment as passed to `canvas.create_line` and `draw.line`:
both calls receive the same endpoints, the same `fill=self.pen_color`
and the same `width=int(self.selected_brush_size.get())`.
`color` is `none` when `self.pen_color` is Python `None`. -/
structure Segment where
  x1 : Int
  y1 : Int
  x2 : Int
  y2 : Int
  color : Option Color
  width : Nat
deriving Repr, DecidableEq

/-- A drawing operation applied to the backing image after its creation. -/
inductive ImgOp where
  | line (seg : Segment)
  | textComposite (x y : Int) (text : String) (size : Int) (color : Option Color)
deriving Repr, DecidableEq

/-- The backing PIL image: mode, size, the solid colour it was created
with, and the drawing operations applied since creation. -/
structure PILImage where
  mode : ImageMode
  w : Int
  h : Int
  base : Color
  ops : List ImgOp
deriving Repr, DecidableEq

/-- `Image.alpha_composite(im, layer)` requires both images to be RGBA
(PIL raises `ValueError` otherwise, modelled as `none`); the result is
the base image with the layer's text drawn on top. -/
def alphaComposite (im : PILImage) (lx ly : Int) (text : String) (size : Int)
    (color : Option Color) : Option PILImage :=
  if im.mode = ImageMode.RGBA then
    some { im with ops := im.ops ++ [ImgOp.textComposite lx ly text size color] }
  else
    none

/-- An item on the tkinter canvas, in stacking order: a line created by
`create_line`, or a full-size image snapshot placed by `create_image`
at anchor (0,0). -/
inductive CanvasItem where
  | line (seg : Segment)
  | imageItem (img : PILImage)
deriving Repr, DecidableEq

/-- Tool mode: `self.mode` is the string 'draw' or 'rubber'. -/
inductive Mode where
  | draw
  | rubber
deriving Repr, DecidableEq

/-- Python truthiness of `self.last_x` / `self.last_y`: `None` and `0`
are falsy, every other int is truthy. -/
def truthy : Option Int → Bool
  | none => false
  | some v => v != 0

/-- Python string truthiness: the empty string (and `None`) is falsy. -/
def truthyStr : Option String → Bool
  | none => false
  | some s => s ≠ ""

/-- Python `str.endswith`: a character-level suffix test. -/
def py_endswith (s suffix : String) : Bool :=
  suffix.data.isSuffixOf s.data

/-- Python `'{:02x}'.format n`: lowercase hex, zero-padded to width 2. -/
def py02x (n : Nat) : String :=
  let ds := Nat.toDigits 16 n
  let pad := List.replicate (2 - ds.length) '0'
  String.mk (pad ++ ds)

/-- `'#\x7b:02x\x7d\x7b:02x\x7d\x7b:02x\x7d'.format(*rgb)` as used by `pipette`:
extra positional arguments (the alpha of an RGBA pixel) are ignored by
`str.format`. -/
def formatHexColor (p : Pixel) : Color :=
  "#" ++ py02x p.r ++ py02x p.g ++ py02x p.b

namespace App1

/-- The state of `drawing_app.py`'s `DrawingApp` relevant to its
behaviour: the attributes set in `__init__` (UI widget handles, cursors,
button reliefs and tooltips carry no drawing state and are omitted).
`width`, `height` are `Option` because `choose_size` stores
`simpledialog.askinteger` results (Python `None` on cancel) into them
unconditionally; `pen_color`, `last_color` and `bg_colour` are `Option`
because `colorchooser.askcolor(...)[1]` is `None` on cancel.
`textBind` holds the pending `<Button-1>` handler installed by
`add_text` (the captured text and font size).
`image` is the object `self.image` references; `drawImage` tracks what
`self.draw` wraps: `none` means `self.draw` is bound to `self.image`
(as after `__init__`, `clear_canvas`, `choose_size` and `background`,
which all recreate `self.draw` right after reassigning `self.image`),
while `some img` means `self.draw` still wraps the separate object
`img` — `add_text`'s click handler reassigns `self.image` to the
composite without recreating `self.draw`, orphaning the handle on the
pre-composite image. -/
structure State where
  width : Option Int
  height : Option Int
  bg_colour : Option Color
  image : PILImage
  drawImage : Option PILImage
  canvasItems : List CanvasItem
  canvasBg : Color
  canvasW : Int
  canvasH : Int
  last_x : Option Int
  last_y : Option Int
  pen_color : Option Color
  last_color : Option Color
  mode : Mode
  brushSize : Nat
  textBind : Option (String × Int)
deriving Repr, DecidableEq

/-- `__init__`: 600x400 RGBA white image, white canvas, pen and last
colour black, draw mode, brush size '1' (first entry of the sizes menu). -/
def init : State where
  width := some 600
  height := some 400
  bg_colour := some "white"
  image := { mode := ImageMode.RGBA, w := 600, h := 400, base := "white", ops := [] }
  drawImage := none
  canvasItems := []
  canvasBg := "white"
  canvasW := 600
  canvasH := 400
  last_x := none
  last_y := none
  pen_color := some "black"
  last_color := some "black"
  mode := Mode.draw
  brushSize := 1
  textBind := none

/-- `paint(event)` (drawing_app.py, lines 200-225): if `self.last_x and
self.last_y` are truthy, create a line on the canvas and call
`self.draw.line` with the same endpoints, `fill=self.pen_color` and
`width=int(self.selected_brush_size.get())`; then record the event
position as the new last position.  `self.draw.line` mutates the image
object `self.draw` wraps: `self.image` itself when the handle is bound
to it, otherwise the orphaned pre-composite image left behind by a
completed text stamp.  Cursor, button-state and label updates carry no
drawing state. -/
def paint (s : State) (ex ey : Int) : State :=
  let s' :=
    if truthy s.last_x && truthy s.last_y then
      let seg : Segment :=
        { x1 := s.last_x.getD 0, y1 := s.last_y.getD 0, x2 := ex, y2 := ey
          color := s.pen_color, width := s.brushSize }
      match s.drawImage with
      | none =>
          { s with
            canvasItems := s.canvasItems ++ [CanvasItem.line seg]
            image := { s.image with ops := s.image.ops ++ [ImgOp.line seg] } }
      | some orphan =>
          { s with
            canvasItems := s.canvasItems ++ [CanvasItem.line seg]
            drawImage := some { orphan with ops := orphan.ops ++ [ImgOp.line seg] } }
    else s
  { s' with last_x := some ex, last_y := some ey }

/-- `reset(event)` (lines 267-275): `self.last_x, self.last_y = None, None`. -/
def reset (s : State) : State :=
  { s with last_x := none, last_y := none }

/-- `brush()` (lines 227-237): `self.pen_color = self.last_color`,
`self.mode = 'draw'`. -/
def brush (s : State) : State :=
  { s with pen_color := s.last_color, mode := Mode.draw }

/-- `rubber()` (lines 239-251): `self.last_color = self.pen_color`,
`self.pen_color = self.bg_colour`, `self.mode = 'rubber'`. -/
def rubber (s : State) : State :=
  { s with last_color := s.pen_color, pen_color := s.bg_colour, mode := Mode.rubber }

/-- `pipette(event)` (lines 253-265): the pixel `self.image.getpixel((event.x,
event.y))` returns (passed here as `px`) is formatted as `#rrggbb` and
becomes the pen colour; `self.mode = 'draw'`. -/
def pipette (s : State) (px : Pixel) : State :=
  { s with pen_color := some (formatHexColor px), mode := Mode.draw }

/-- `choose_color(event)` (lines 288-294): `self.pen_color =
colorchooser.askcolor(...)[1]` and `self.last_color = self.pen_color`,
unconditionally — a cancelled dialog (`res = none`) stores `None` into
both. -/
def choose_color (s : State) (res : Option Color) : State :=
  { s with pen_color := res, last_color := res }

/-- `choose_size()` (lines 296-308): `self.width` and `self.height` are
assigned the two `askinteger` results unconditionally; only when both
are not `None` are the image and the canvas recreated at the new size
(white RGB image, white canvas).  `self.draw` is recreated on the new
image (line 304), re-binding the handle; `self.canvas.destroy()`
discards any pending `add_text` `<Button-1>` binding (`binds()` only
re-binds motion, release and pipette).  `Image.new` raises on a
negative size, leaving the image, draw handle and canvas untouched in
that case (the width/height attributes are already overwritten). -/
def choose_size (s : State) (wres hres : Option Int) : State :=
  let s := { s with width := wres, height := hres }
  match wres, hres with
  | some w, some h =>
      if 0 ≤ w ∧ 0 ≤ h then
        { s with
          image := { mode := ImageMode.RGB, w := w, h := h, base := "white", ops := [] }
          drawImage := none
          canvasItems := []
          canvasBg := "white"
          canvasW := w
          canvasH := h
          textBind := none }
      else s
  | _, _ => s

/-- `background()` (lines 310-328): `self.bg_colour` is assigned the
`askcolor` result unconditionally; if it is truthy the image is
recreated at its current size as RGBA filled with the background
colour, `self.draw` is recreated on it (line 325, re-binding the
handle), the canvas background is configured and a snapshot of the
(fresh) image is placed on the canvas via `create_image`. -/
def background (s : State) (res : Option Color) : State :=
  let s := { s with bg_colour := res }
  match res with
  | some c =>
      let newImage : PILImage :=
        { mode := ImageMode.RGBA, w := s.image.w, h := s.image.h, base := c, ops := [] }
      { s with
        image := newImage
        drawImage := none
        canvasBg := c
        canvasItems := s.canvasItems ++ [CanvasItem.imageItem newImage] }
  | none => s

/-- `clear_canvas()` (lines 277-286): delete all canvas items, set the
canvas background to white, then recreate the image as white RGB at
`(self.width, self.height)`, recreate `self.draw` on it (line 284,
re-binding the handle), reset `bg_colour` and call `brush()`.
When `self.width` or `self.height` is `None` (after a cancelled resize
dialog) or negative, `Image.new` raises after the canvas was already
cleared, so the image, draw handle, `bg_colour` and mode are left
unchanged. -/
def clear_canvas (s : State) : State :=
  let s := { s with canvasItems := [], canvasBg := "white" }
  match s.width, s.height with
  | some w, some h =>
      if 0 ≤ w ∧ 0 ≤ h then
        brush { s with
          image := { mode := ImageMode.RGB, w := w, h := h, base := "white", ops := [] }
          drawImage := none
          bg_colour := some "white" }
      else s
  | _, _ => s

/-- `add_text()` (lines 330-353): ask for a text string and a size; if
both are truthy (`if text_str and text_size:`), bind a `<Button-1>`
handler capturing them.  Nothing else changes until the click. -/
def add_text (s : State) (tres : Option String) (szres : Option Int) : State :=
  if truthyStr tres && truthy szres then
    { s with textBind := some (tres.getD "", szres.getD 0) }
  else s

/-- The `<Button-1>` handler installed by `add_text` (`on_click`,
lines 345-352): build a transparent RGBA text layer, alpha-composite it
over the image, place the result on the canvas, and unbind the handler.
`Image.alpha_composite` returns a new object assigned to `self.image`;
unlike every other reassignment site, `self.draw` is NOT recreated, so
the draw handle stays bound to whatever object it wrapped before — the
pre-composite image when it was bound to `self.image`.  If the backing
image is not RGBA, `Image.alpha_composite` raises `ValueError` before
any attribute is assigned, so the state — including the still-installed
binding — is unchanged.  A click with no handler bound does nothing. -/
def canvasClick (s : State) (ex ey : Int) : State :=
  match s.textBind with
  | some (text, size) =>
      match alphaComposite s.image ex ey text size s.pen_color with
      | some newImage =>
          { s with
            image := newImage
            drawImage := some (s.drawImage.getD s.image)
            canvasItems := s.canvasItems ++ [CanvasItem.imageItem newImage]
            textBind := none }
      | none => s
  | none => s

/-- `save_image(event)` (lines 355-365): the file dialog returns a path
(empty string on cancel); if it is truthy the image is saved, with
'.png' appended when the path does not already end in '.png'.  Returns
the written (path, image) or `none` when nothing is written.  The
application state is not modified. -/
def save_image (s : State) (file_path : String) : Option (String × PILImage) :=
  if file_path ≠ "" then
    some (if py_endswith file_path ".png" then file_path else file_path ++ ".png", s.image)
  else
    none

/-- The brush-size radiobuttons (setup_ui, lines 118-125): selecting a
size sets `selected_brush_size` and invokes `brush()`. -/
def setBrushSize (s : State) (n : Nat) : State :=
  brush { s with brushSize := n }

/-- The drawing operations accumulated in the object `self.draw` wraps:
those of `self.image` while the handle is bound to it, otherwise those
of the orphaned pre-composite image. -/
def drawTargetOps (s : State) : List ImgOp :=
  match s.drawImage with
  | none => s.image.ops
  | some orphan => orphan.ops

/-- The events the application can receive, with library-call results
(dialog answers, the pixel read by `getpixel`) carried as data. -/
inductive Op where
  | paintEvent (x y : Int)
  | release
  | clickEvent (x y : Int)
  | brushOp
  | rubberOp
  | pipetteOp (px : Pixel)
  | chooseColorOp (res : Option Color)
  | chooseSizeOp (wres hres : Option Int)
  | backgroundOp (res : Option Color)
  | addTextOp (tres : Option String) (szres : Option Int)
  | clearOp
  | setBrushSizeOp (n : Nat)
  | saveOp (path : String)
deriving Repr, DecidableEq

/-- Dispatch an event to its handler (save_image mutates nothing). -/
def step (s : State) : Op → State
  | Op.paintEvent x y => paint s x y
  | Op.release => reset s
  | Op.clickEvent x y => canvasClick s x y
  | Op.brushOp => brush s
  | Op.rubberOp => rubber s
  | Op.pipetteOp px => pipette s px
  | Op.chooseColorOp res => choose_color s res
  | Op.chooseSizeOp wres hres => choose_size s wres hres
  | Op.backgroundOp res => background s res
  | Op.addTextOp tres szres => add_text s tres szres
  | Op.clearOp => clear_canvas s
  | Op.setBrushSizeOp n => setBrushSize s n
  | Op.saveOp _ => s

/-- Run a sequence of events from a state. -/
def run (s : State) : List Op → State
  | [] => s
  | op :: ops => run (step s op) ops

/-- An event whose dialog interaction (if any) completed normally: no
dialog was cancelled and `choose_size` received non-negative sizes. -/
def validOp : Op → Bool
  | Op.chooseColorOp res => res.isSome
  | Op.chooseSizeOp (some w) (some h) => decide (0 ≤ w ∧ 0 ≤ h)
  | Op.chooseSizeOp _ _ => false
  | Op.backgroundOp res => res.isSome
  | _ => true

end App1

namespace App2

/-- The state of `drawing_app2.py`'s `DrawingApp`: a 600x400 RGB white
image, last position, pen colour and brush size (this revision has no
modes, eraser, pipette, resize nor text tool). -/
structure State where
  image : PILImage
  canvasItems : List CanvasItem
  last_x : Option Int
  last_y : Option Int
  pen_color : Option Color
  brushSize : Nat
deriving Repr, DecidableEq

/-- `__init__` of drawing_app2.py. -/
def init : State where
  image := { mode := ImageMode.RGB, w := 600, h := 400, base := "white", ops := [] }
  canvasItems := []
  last_x := none
  last_y := none
  pen_color := some "black"
  brushSize := 1

/-- `paint(event)` (drawing_app2.py, lines 53-62): if `self.last_x and
self.last_y`, create the line on the canvas and draw it into the image
with the same endpoints, fill and width; then record the event position. -/
def paint (s : State) (ex ey : Int) : State :=
  let s' :=
    if truthy s.last_x && truthy s.last_y then
      let seg : Segment :=
        { x1 := s.last_x.getD 0, y1 := s.last_y.getD 0, x2 := ex, y2 := ey
          color := s.pen_color, width := s.brushSize }
      { s with
        canvasItems := s.canvasItems ++ [CanvasItem.line seg]
        image := { s.image with ops := s.image.ops ++ [ImgOp.line seg] } }
    else s
  { s' with last_x := some ex, last_y := some ey }

/-- `reset(event)` (drawing_app2.py, lines 64-65). -/
def reset (s : State) : State :=
  { s with last_x := none, last_y := none }

/-- `save_image()` (drawing_app2.py, lines 75-81): identical logic to
drawing_app.py's `save_image`. -/
def save_image (s : State) (file_path : String) : Option (String × PILImage) :=
  if file_path ≠ "" then
    some (if py_endswith file_path ".png" then file_path else file_path ++ ".png", s.image)
  else
    none

/-- Fold a list of drag events through `paint`. -/
def runPaints (s : State) : List (Int × Int) → State
  | [] => s
  | (x, y) :: evs => runPaints (paint s x y) evs

end App2

namespace App1

/-- Fold a list of drag events through App1's `paint`. -/
def runPaints (s : State) : List (Int × Int) → State
  | [] => s
  | (x, y) :: evs => runPaints (paint s x y) evs

end App1

/-- The rendered content of a raster surface: a solid base colour of a
given size with a list of drawing operations applied on top. -/
structure Picture where
  w : Int
  h : Int
  base : Color
  ops : List ImgOp
deriving Repr, DecidableEq

/-- The content of the backing image is exactly its creation fill plus
its accumulated drawing operations (alpha is always fully opaque where
the base is, so `convert("RGB")` for display loses nothing). -/
def PILImage.picture (im : PILImage) : Picture :=
  { w := im.w, h := im.h, base := im.base, ops := im.ops }

/-- Render canvas items in stacking order over a picture: a line adds a
drawing operation on top; an image snapshot placed at anchor (0,0)
covers the surface (the program only ever places snapshots whose size
equals the canvas size). -/
def renderItems (p : Picture) : List CanvasItem → Picture
  | [] => p
  | CanvasItem.line seg :: rest =>
      renderItems { p with ops := p.ops ++ [ImgOp.line seg] } rest
  | CanvasItem.imageItem img :: rest => renderItems img.picture rest

/-- What the screen shows: the canvas background covered by the items in
stacking order. -/
def canvasPicture (s : App1.State) : Picture :=
  renderItems { w := s.canvasW, h := s.canvasH, base := s.canvasBg, ops := [] } s.canvasItems

/-- The numeric value of a lowercase hex digit. -/
def hexDigitVal (c : Char) : Option Nat :=
  if '0' ≤ c ∧ c ≤ '9' then some (c.toNat - 48)
  else if 'a' ≤ c ∧ c ≤ 'f' then some (c.toNat - 87)
  else none

/-- The lowercase hex digit for a value below 16. -/
def hexDigitChar (n : Nat) : Char :=
  if n < 10 then Char.ofNat (48 + n) else Char.ofNat (87 + n)

/-- Parse a colour string of the exact shape `#rrggbb` back into its
red, green and blue components; `none` for any other shape. -/
def parseHexColor (s : String) : Option (Nat × Nat × Nat) :=
  match s.data with
  | ['#', c1, c2, c3, c4, c5, c6] =>
      match hexDigitVal c1, hexDigitVal c2, hexDigitVal c3,
            hexDigitVal c4, hexDigitVal c5, hexDigitVal c6 with
      | some a, some b, some c, some d, some e, some f =>
          some (16 * a + b, 16 * c + d, 16 * e + f)
      | _, _, _, _, _, _ => none
  | _ => none

/-- A text stamp completed with every dialog answered normally,
followed by a drag: `add_text('hi', 12)`, a left-click at (3, 4), then
motion events at (1, 1) and (2, 2). -/
def stampThenDragOps : List App1.Op :=
  [App1.Op.addTextOp (some "hi") (some 12), App1.Op.clickEvent 3 4,
   App1.Op.paintEvent 1 1, App1.Op.paintEvent 2 2]

/-- The drawing_app.py state right after a completed text stamp: the
backing image holds the composited text, and `self.draw` is orphaned on
the pre-composite image. -/
def stampedS1 : App1.State :=
  App1.run App1.init
    [App1.Op.addTextOp (some "hi") (some 12), App1.Op.clickEvent 3 4]

/-- A drawing_app2.py state whose backing image, last position, pen
colour and brush size agree with `stampedS1`. -/
def stampedS2 : App2.State :=
  { App2.init with image :=
      { App2.init.image with ops := [ImgOp.textComposite 3 4 "hi" 12 (some "black")] } }

/-- Eraser activated, then the background changed to red, then a drag:
reaches a rubber-mode state whose strokes are not in the current
background colour. -/
def staleBgOps : List App1.Op :=
  [App1.Op.rubberOp, App1.Op.backgroundOp (some "#ff0000"),
   App1.Op.paintEvent 1 1, App1.Op.paintEvent 2 2]

/-- The canvas is cleared (making the backing image RGB) and a text
stamp is requested with valid input. -/
def rgbClickState : App1.State :=
  App1.run App1.init [App1.Op.clearOp, App1.Op.addTextOp (some "hi") (some 12)]

/-- Two strokes are drawn, then the resize dialog is cancelled twice,
leaving `width` and `height` set to `None`. -/
def cancelledResizeOps : List App1.Op :=
  [App1.Op.paintEvent 1 1, App1.Op.paintEvent 2 2, App1.Op.chooseSizeOp none none]

/-! ## Supporting lemmas -/

set_option maxRecDepth 8192 in
theorem py02x_eq :
    ∀ n < 256, py02x n = String.mk [hexDigitChar (n / 16), hexDigitChar (n % 16)] := by
  decide

theorem hexDigitVal_hexDigitChar : ∀ n < 16, hexDigitVal (hexDigitChar n) = some n := by
  decide

theorem parseHexColor_format (r g b : Nat) (hr : r < 256) (hg : g < 256) (hb : b < 256) :
    parseHexColor ("#" ++ py02x r ++ py02x g ++ py02x b) = some (r, g, b) := by
  have h16 : (0 : Nat) < 16 := by norm_num
  have hrd : r / 16 < 16 := (Nat.div_lt_iff_lt_mul h16).2 hr
  have hgd : g / 16 < 16 := (Nat.div_lt_iff_lt_mul h16).2 hg
  have hbd : b / 16 < 16 := (Nat.div_lt_iff_lt_mul h16).2 hb
  rw [py02x_eq r hr, py02x_eq g hg, py02x_eq b hb]
  simp [parseHexColor, String.data_append,
    hexDigitVal_hexDigitChar _ hrd, hexDigitVal_hexDigitChar _ (Nat.mod_lt r h16),
    hexDigitVal_hexDigitChar _ hgd, hexDigitVal_hexDigitChar _ (Nat.mod_lt g h16),
    hexDigitVal_hexDigitChar _ hbd, hexDigitVal_hexDigitChar _ (Nat.mod_lt b h16)]
  omega

theorem runPaints_agree (evs : List (Int × Int)) (s1 : App1.State) (s2 : App2.State)
    (hd : s1.drawImage = none)
    (hx : s1.last_x = s2.last_x) (hy : s1.last_y = s2.last_y)
    (hp : s1.pen_color = s2.pen_color) (hb : s1.brushSize = s2.brushSize)
    (ho : s1.image.ops = s2.image.ops) :
    (App1.runPaints s1 evs).image.ops = (App2.runPaints s2 evs).image.ops ∧
    (App1.runPaints s1 evs).last_x = (App2.runPaints s2 evs).last_x ∧
    (App1.runPaints s1 evs).last_y = (App2.runPaints s2 evs).last_y := by
  induction evs generalizing s1 s2 with
  | nil => exact ⟨ho, hx, hy⟩
  | cons ev rest ih =>
      obtain ⟨x, y⟩ := ev
      refine ih (App1.paint s1 x y) (App2.paint s2 x y) ?_ ?_ ?_ ?_ ?_ ?_ <;>
        by_cases hc : (truthy s2.last_x && truthy s2.last_y) = true <;>
          simp [App1.paint, App2.paint, hd, hx, hy, hp, hb, ho, hc]

/-! ## Claims -/

/-- C1: the code fails the claimed dual-surface invariant (code bug):
after a normally-completed text stamp — `add_text('hi', 12)` with both
dialogs answered, then the bound click at (3, 4) — `on_click` has
reassigned `self.image` without recreating `self.draw`, so the
subsequent drag from (1, 1) to (2, 2) draws its segment on the canvas
and into the orphaned pre-composite image while the backing image (the
object `save_image` writes) receives nothing: the screen shows the
stroke, the saved PNG does not, even though every dialog in the
sequence completed normally. -/
theorem stamp_orphans_draw_handle :
    stampThenDragOps.all App1.validOp = true ∧
    canvasPicture (App1.run App1.init stampThenDragOps) =
      { w := 600, h := 400, base := "white",
        ops := [ImgOp.textComposite 3 4 "hi" 12 (some "black"),
                ImgOp.line { x1 := 1, y1 := 1, x2 := 2, y2 := 2,
                             color := some "black", width := 1 }] } ∧
    (App1.run App1.init stampThenDragOps).image.ops =
      [ImgOp.textComposite 3 4 "hi" 12 (some "black")] ∧
    (App1.run App1.init stampThenDragOps).drawImage =
      some { mode := ImageMode.RGBA, w := 600, h := 400, base := "white",
             ops := [ImgOp.line { x1 := 1, y1 := 1, x2 := 2, y2 := 2,
                                  color := some "black", width := 1 }] } ∧
    App1.save_image (App1.run App1.init stampThenDragOps) "out.png" =
      some ("out.png", (App1.run App1.init stampThenDragOps).image) ∧
    canvasPicture (App1.run App1.init stampThenDragOps) ≠
      (App1.run App1.init stampThenDragOps).image.picture := by
  decide

/-- C2 counterexample: from the reachable drawing_app.py state right
after a completed text stamp and a drawing_app2.py state agreeing on
the backing-image content, last position, pen colour and brush size,
the same two-event drag leaves drawing_app.py's backing image unchanged
(the stroke lands in the orphaned draw target) while drawing_app2.py's
backing image gains the stroke: the two handlers do not perform the
same backing-image updates from every pair of agreeing states. -/
theorem paint_equiv_stamped_counterexample :
    stampedS1.last_x = stampedS2.last_x ∧ stampedS1.last_y = stampedS2.last_y ∧
    stampedS1.pen_color = stampedS2.pen_color ∧
    stampedS1.brushSize = stampedS2.brushSize ∧
    stampedS1.image.ops = stampedS2.image.ops ∧
    (App1.runPaints stampedS1 [(1, 1), (2, 2)]).image.ops ≠
      (App2.runPaints stampedS2 [(1, 1), (2, 2)]).image.ops := by
  decide

/-- C2 (amended): the paint handlers of drawing_app.py and
drawing_app2.py perform exactly the same backing-image updates (and
keep the same last drag position) on every sequence of drag events,
from any pair of states agreeing on the last position, pen colour,
brush size and accumulated image operations, provided drawing_app.py's
draw handle is bound to its backing image — as at construction and
after every clear, resize and background change, but not after a
completed text stamp. -/
theorem paint_handlers_equivalent :
    ∀ (evs : List (Int × Int)) (s1 : App1.State) (s2 : App2.State),
      s1.drawImage = none →
      s1.last_x = s2.last_x → s1.last_y = s2.last_y →
      s1.pen_color = s2.pen_color → s1.brushSize = s2.brushSize →
      s1.image.ops = s2.image.ops →
      (App1.runPaints s1 evs).image.ops = (App2.runPaints s2 evs).image.ops ∧
      (App1.runPaints s1 evs).last_x = (App2.runPaints s2 evs).last_x ∧
      (App1.runPaints s1 evs).last_y = (App2.runPaints s2 evs).last_y :=
  fun evs s1 s2 hd hx hy hp hb ho => runPaints_agree evs s1 s2 hd hx hy hp hb ho

/-- C2 witness: the two freshly constructed applications agree (both
start with no last position, black pen, size 1, an empty image and the
draw handle bound) and stay in lockstep on a concrete drag sequence. -/
theorem paint_handlers_equivalent_witness :
    (App1.runPaints App1.init [(1, 2), (3, 4), (0, 5), (6, 7)]).image.ops =
      (App2.runPaints App2.init [(1, 2), (3, 4), (0, 5), (6, 7)]).image.ops :=
  (paint_handlers_equivalent [(1, 2), (3, 4), (0, 5), (6, 7)] App1.init App2.init
    rfl rfl rfl rfl rfl rfl).1

/-- C8: a paint event draws a connecting segment exactly when both
stored last coordinates are truthy (set and nonzero); otherwise (first
motion, or a recorded coordinate equal to 0) it draws nothing on either
surface; when it draws, the segment goes onto the canvas and into the
object the draw handle wraps (the backing image itself whenever the
handle is bound to it); in all cases the event position becomes the new
last position, and the mouse-release handler resets both last
coordinates to None.  Both revisions behave this way. -/
theorem paint_guard_truthiness :
    (∀ v : Option Int, truthy v = true ↔ v ≠ none ∧ v ≠ some 0) ∧
    (∀ (s : App1.State) (ex ey : Int), (truthy s.last_x && truthy s.last_y) = false →
        (App1.paint s ex ey).image.ops = s.image.ops ∧
        (App1.paint s ex ey).canvasItems = s.canvasItems) ∧
    (∀ (s : App1.State) (ex ey : Int), (truthy s.last_x && truthy s.last_y) = true →
        (App1.paint s ex ey).canvasItems =
          s.canvasItems ++ [CanvasItem.line
            { x1 := s.last_x.getD 0, y1 := s.last_y.getD 0, x2 := ex, y2 := ey,
              color := s.pen_color, width := s.brushSize }] ∧
        App1.drawTargetOps (App1.paint s ex ey) =
          App1.drawTargetOps s ++ [ImgOp.line
            { x1 := s.last_x.getD 0, y1 := s.last_y.getD 0, x2 := ex, y2 := ey,
              color := s.pen_color, width := s.brushSize }] ∧
        (s.drawImage = none →
          (App1.paint s ex ey).image.ops =
            s.image.ops ++ [ImgOp.line
              { x1 := s.last_x.getD 0, y1 := s.last_y.getD 0, x2 := ex, y2 := ey,
                color := s.pen_color, width := s.brushSize }])) ∧
    (∀ (s : App1.State) (ex ey : Int),
        (App1.paint s ex ey).last_x = some ex ∧ (App1.paint s ex ey).last_y = some ey) ∧
    (∀ s : App1.State, (App1.reset s).last_x = none ∧ (App1.reset s).last_y = none) ∧
    (∀ (s : App2.State) (ex ey : Int), (truthy s.last_x && truthy s.last_y) = false →
        (App2.paint s ex ey).image.ops = s.image.ops) ∧
    (∀ s : App2.State, (App2.reset s).last_x = none ∧ (App2.reset s).last_y = none) := by
  refine ⟨?_, ?_, ?_, ?_, ?_, ?_, ?_⟩
  · intro v
    cases v with
    | none => simp [truthy]
    | some n => simp [truthy]
  · intro s ex ey hc
    cases hd : s.drawImage <;> constructor <;> simp [App1.paint, hc, hd]
  · intro s ex ey hc
    cases hd : s.drawImage with
    | none =>
        refine ⟨?_, ?_, fun _ => ?_⟩ <;> simp [App1.paint, App1.drawTargetOps, hc, hd]
    | some orphan =>
        refine ⟨?_, ?_, fun h => ?_⟩
        · simp [App1.paint, hc, hd]
        · simp [App1.paint, App1.drawTargetOps, hc, hd]
        · exact Option.noConfusion h
  · intro s ex ey
    by_cases hc : (truthy s.last_x && truthy s.last_y) = true <;>
      cases hd : s.drawImage <;> constructor <;> simp [App1.paint, hc, hd]
  · intro s
    constructor <;> simp [App1.reset]
  · intro s ex ey hc
    simp [App2.paint, hc]
  · intro s
    constructor <;> simp [App2.reset]

/-- C8 witness: the guard at concrete inputs: a first motion draws
nothing, a recorded x-coordinate of 0 draws nothing, a recorded nonzero
position draws, and release clears the position. -/
theorem paint_guard_truthiness_witness :
    (truthy (some (0 : Int)) = true ↔ some (0 : Int) ≠ none ∧ some (0 : Int) ≠ some 0) ∧
    (App1.paint App1.init 9 9).image.ops = App1.init.image.ops ∧
    (App1.paint { App1.init with last_x := some 0, last_y := some 5 } 9 9).image.ops =
      { App1.init with last_x := some 0, last_y := some 5 }.image.ops ∧
    (App1.paint { App1.init with last_x := some 4, last_y := some 5 } 9 9).image.ops =
      App1.init.image.ops ++ [ImgOp.line
        { x1 := 4, y1 := 5, x2 := 9, y2 := 9, color := some "black", width := 1 }] ∧
    (App1.reset (App1.paint App1.init 9 9)).last_x = none :=
  ⟨paint_guard_truthiness.1 (some 0),
   (paint_guard_truthiness.2.1 App1.init 9 9 (by decide)).1,
   (paint_guard_truthiness.2.1 _ 9 9 (by decide)).1,
   (paint_guard_truthiness.2.2.1 { App1.init with last_x := some 4, last_y := some 5 }
     9 9 (by decide)).2.2 rfl,
   (paint_guard_truthiness.2.2.2.2.1 _).1⟩

/-- C9: switching to the eraser and straight back restores the pen
colour and leaves the application in draw mode: `rubber()` stores the
pen colour in `last_color` and `brush()` restores it. -/
theorem rubber_brush_roundtrip :
    ∀ s : App1.State,
      (App1.brush (App1.rubber s)).pen_color = s.pen_color ∧
      (App1.brush (App1.rubber s)).mode = Mode.draw := by
  intro s
  constructor <;> simp [App1.brush, App1.rubber]

/-- C3 counterexample: cancelling the colour-chooser dialog does not
leave the state unchanged: from the initial state (pen colour 'black')
`choose_color` stores the dialog's `None` into `pen_color` and
`last_color`. -/
theorem choose_color_cancel_changes_state :
    (App1.choose_color App1.init none).pen_color = none ∧
    App1.init.pen_color = some "black" ∧
    App1.choose_color App1.init none ≠ App1.init := by
  decide

/-- C3 amended: `save_image` and `add_text` fully guard against
cancelled or empty input (nothing is written, no handler is installed,
the state is unchanged), but the other dialogs store their raw result
before any guard: `choose_color` overwrites `pen_color` and
`last_color` (with `None` on cancel), `choose_size` overwrites `width`
and `height`, and `background` overwrites `bg_colour`; only the image
and canvas updates of the latter two are guarded. -/
theorem dialog_cancel_guard_amended :
    (∀ s : App1.State, App1.save_image s "" = none) ∧
    (∀ (s : App1.State) (t : Option String) (sz : Option Int),
        truthyStr t = false ∨ truthy sz = false → App1.add_text s t sz = s) ∧
    (∀ s : App1.State,
        App1.choose_color s none = { s with pen_color := none, last_color := none }) ∧
    (∀ (s : App1.State) (hres : Option Int),
        App1.choose_size s none hres = { s with width := none, height := hres }) ∧
    (∀ (s : App1.State) (wres : Option Int),
        App1.choose_size s wres none = { s with width := wres, height := none }) ∧
    (∀ s : App1.State, App1.background s none = { s with bg_colour := none }) := by
  refine ⟨?_, ?_, ?_, ?_, ?_, ?_⟩
  · intro s
    simp [App1.save_image]
  · intro s t sz hts
    rcases hts with ht | hsz
    · simp [App1.add_text, ht]
    · simp [App1.add_text, hsz]
  · intro s
    rfl
  · intro s hres
    rfl
  · intro s wres
    cases wres <;> rfl
  · intro s
    rfl

/-- C3 amended witness: the guards at concrete inputs. -/
theorem dialog_cancel_guard_amended_witness :
    App1.save_image App1.init "" = none ∧
    App1.add_text App1.init (some "") (some 5) = App1.init ∧
    App1.choose_color App1.init none =
      { App1.init with pen_color := none, last_color := none } ∧
    App1.background App1.init none = { App1.init with bg_colour := none } :=
  ⟨dialog_cancel_guard_amended.1 App1.init,
   dialog_cancel_guard_amended.2.1 App1.init (some "") (some 5) (Or.inl (by decide)),
   dialog_cancel_guard_amended.2.2.1 App1.init,
   dialog_cancel_guard_amended.2.2.2.2.2 App1.init⟩

/-- C4: the pipette sets the pen colour to the hex string `#rrggbb` of
the sampled pixel's red, green and blue components (the alpha of an
RGBA pixel is ignored by the format string) and switches to draw mode:
parsing the stored colour back recovers exactly the components. -/
theorem pipette_sets_hex_pen_color :
    ∀ (s : App1.State) (px : Pixel), px.r < 256 → px.g < 256 → px.b < 256 →
      (App1.pipette s px).pen_color = some (formatHexColor px) ∧
      parseHexColor (formatHexColor px) = some (px.r, px.g, px.b) ∧
      (App1.pipette s px).mode = Mode.draw := by
  intro s px hr hg hb
  exact ⟨rfl, parseHexColor_format px.r px.g px.b hr hg hb, rfl⟩

/-- C4 witness: sampling the pixel (171, 205, 239, 255). -/
theorem pipette_sets_hex_pen_color_witness :
    (App1.pipette App1.init ⟨171, 205, 239, some 255⟩).pen_color =
      some (formatHexColor ⟨171, 205, 239, some 255⟩) ∧
    parseHexColor (formatHexColor ⟨171, 205, 239, some 255⟩) = some (171, 205, 239) ∧
    formatHexColor ⟨171, 205, 239, some 255⟩ = "#abcdef" :=
  have h := pipette_sets_hex_pen_color App1.init ⟨171, 205, 239, some 255⟩
    (by decide) (by decide) (by decide)
  ⟨h.1, h.2.1, by decide⟩

/-- C5 counterexample: after activating the eraser and then changing
the background colour to red, the application is still in rubber mode
but the drag paints 'white' (the background at activation), not the
canvas's current background '#ff0000'. -/
theorem rubber_stale_background_counterexample :
    (App1.run App1.init staleBgOps).mode = Mode.rubber ∧
    (App1.run App1.init staleBgOps).bg_colour = some "#ff0000" ∧
    (App1.run App1.init staleBgOps).image.ops =
      [ImgOp.line { x1 := 1, y1 := 1, x2 := 2, y2 := 2, color := some "white", width := 1 }] ∧
    (App1.run App1.init staleBgOps).pen_color ≠ (App1.run App1.init staleBgOps).bg_colour := by
  decide

/-- C5 amended: activating the eraser sets the pen colour to the
background colour current at activation time, storing the previous pen
colour, and subsequent drags paint in that stored colour (onto the
canvas and into the object the draw handle wraps — the backing image
itself whenever the handle is bound to it) — which equals the canvas's
current background only as long as the background is not changed while
rubber mode stays active. -/
theorem rubber_uses_activation_background :
    ∀ (s : App1.State) (ex ey : Int),
      (App1.rubber s).pen_color = s.bg_colour ∧
      (App1.rubber s).last_color = s.pen_color ∧
      (App1.rubber s).mode = Mode.rubber ∧
      (truthy s.last_x = true → truthy s.last_y = true →
        (App1.paint (App1.rubber s) ex ey).canvasItems =
          s.canvasItems ++ [CanvasItem.line
            { x1 := s.last_x.getD 0, y1 := s.last_y.getD 0, x2 := ex, y2 := ey,
              color := s.bg_colour, width := s.brushSize }] ∧
        App1.drawTargetOps (App1.paint (App1.rubber s) ex ey) =
          App1.drawTargetOps s ++ [ImgOp.line
            { x1 := s.last_x.getD 0, y1 := s.last_y.getD 0, x2 := ex, y2 := ey,
              color := s.bg_colour, width := s.brushSize }] ∧
        (s.drawImage = none →
          (App1.paint (App1.rubber s) ex ey).image.ops =
            s.image.ops ++ [ImgOp.line
              { x1 := s.last_x.getD 0, y1 := s.last_y.getD 0, x2 := ex, y2 := ey,
                color := s.bg_colour, width := s.brushSize }])) := by
  intro s ex ey
  refine ⟨rfl, rfl, rfl, fun hx hy => ?_⟩
  cases hd : s.drawImage with
  | none =>
      refine ⟨?_, ?_, fun _ => ?_⟩ <;>
        simp [App1.paint, App1.rubber, App1.drawTargetOps, hx, hy, hd]
  | some orphan =>
      refine ⟨?_, ?_, fun h => ?_⟩
      · simp [App1.paint, App1.rubber, hx, hy, hd]
      · simp [App1.paint, App1.rubber, App1.drawTargetOps, hx, hy, hd]
      · exact Option.noConfusion h

/-- C5 amended witness: erasing right after a drag position was
recorded paints in the background colour. -/
theorem rubber_uses_activation_background_witness :
    (App1.rubber { App1.init with last_x := some 3, last_y := some 4 }).pen_color =
      some "white" ∧
    (App1.paint (App1.rubber { App1.init with last_x := some 3, last_y := some 4 })
        7 8).image.ops =
      [ImgOp.line { x1 := 3, y1 := 4, x2 := 7, y2 := 8, color := some "white", width := 1 }] :=
  have h := rubber_uses_activation_background
    { App1.init with last_x := some 3, last_y := some 4 } 7 8
  ⟨h.1, (h.2.2.2 (by decide) (by decide)).2.2 rfl⟩

/-- C6: `save_image` writes exactly the backing image when the chosen
path is non-empty, appending '.png' exactly when the path does not
already end in '.png', and writes nothing when the dialog is cancelled
(empty path); both revisions behave identically. -/
theorem save_image_exports_backing_image :
    ∀ (s : App1.State) (s2 : App2.State) (p : String),
      App1.save_image s "" = none ∧
      App2.save_image s2 "" = none ∧
      (p ≠ "" → App1.save_image s p =
        some (if py_endswith p ".png" then p else p ++ ".png", s.image)) ∧
      (p ≠ "" → App2.save_image s2 p =
        some (if py_endswith p ".png" then p else p ++ ".png", s2.image)) := by
  intro s s2 p
  refine ⟨by simp [App1.save_image], by simp [App2.save_image], fun hp => ?_, fun hp => ?_⟩
  · simp [App1.save_image, hp]
  · simp [App2.save_image, hp]

/-- C6 witness: saving to 'pic' appends '.png', saving to 'pic.png'
does not, and a cancelled dialog writes nothing. -/
theorem save_image_exports_backing_image_witness :
    App1.save_image App1.init "" = none ∧
    App1.save_image App1.init "pic" = some ("pic.png", App1.init.image) ∧
    App1.save_image App1.init "pic.png" = some ("pic.png", App1.init.image) :=
  have h1 := save_image_exports_backing_image App1.init App2.init "pic"
  have h2 := save_image_exports_backing_image App1.init App2.init "pic.png"
  ⟨h1.1,
   by rw [h1.2.2.1 (by decide)]; decide,
   by rw [h2.2.2.1 (by decide)]; decide⟩

/-- C7 counterexample: with the backing image in RGB mode (after
`clear_canvas`), a valid text invocation is pending, yet the next click
changes nothing — `Image.alpha_composite` raises `ValueError` on the
RGB image, so no text is composited and the handler remains bound. -/
theorem add_text_click_rgb_mode_counterexample :
    rgbClickState.textBind = some ("hi", 12) ∧
    rgbClickState.image.mode = ImageMode.RGB ∧
    App1.canvasClick rgbClickState 3 4 = rgbClickState := by
  decide

/-- C7 amended: when the user supplies a non-empty text and a positive
size and the backing image is in RGBA mode, the next single left-click
alpha-composites a transparent RGBA text layer with the text in the
current pen colour onto the image at the clicked position, and the
handler is unbound so a second click changes nothing; when the image is
in RGB mode (after `clear_canvas` or `choose_size`) the composite
fails and the image is left unchanged with the handler still bound. -/
theorem add_text_click_composites_rgba :
    ∀ (s : App1.State) (text : String) (size : Int) (ex ey ex2 ey2 : Int),
      text ≠ "" → 0 < size → s.image.mode = ImageMode.RGBA →
      (App1.add_text s (some text) (some size)).textBind = some (text, size) ∧
      (App1.canvasClick (App1.add_text s (some text) (some size)) ex ey).image =
        { s.image with ops := s.image.ops ++
            [ImgOp.textComposite ex ey text size s.pen_color] } ∧
      (App1.canvasClick (App1.add_text s (some text) (some size)) ex ey).textBind = none ∧
      App1.canvasClick
          (App1.canvasClick (App1.add_text s (some text) (some size)) ex ey) ex2 ey2 =
        App1.canvasClick (App1.add_text s (some text) (some size)) ex ey := by
  intro s text size ex ey ex2 ey2 ht hsz hm
  have hsz' : size ≠ 0 := by omega
  have hbind : (App1.add_text s (some text) (some size)).textBind = some (text, size) := by
    simp [App1.add_text, truthyStr, truthy, ht, hsz']
  have himg : (App1.add_text s (some text) (some size)).image = s.image := by
    simp [App1.add_text, truthyStr, truthy, ht, hsz']
  have hpen : (App1.add_text s (some text) (some size)).pen_color = s.pen_color := by
    simp [App1.add_text, truthyStr, truthy, ht, hsz']
  refine ⟨hbind, ?_, ?_, ?_⟩ <;>
    simp [App1.canvasClick, hbind, himg, hpen, alphaComposite, hm]

/-- C7 amended witness: text 'ok' of size 12 stamped at (5, 6) on the
freshly constructed (RGBA) application. -/
theorem add_text_click_composites_rgba_witness :
    (App1.canvasClick (App1.add_text App1.init (some "ok") (some 12)) 5 6).image =
      { App1.init.image with ops :=
          [ImgOp.textComposite 5 6 "ok" 12 (some "black")] } ∧
    (App1.canvasClick (App1.add_text App1.init (some "ok") (some 12)) 5 6).textBind =
      none :=
  have h := add_text_click_composites_rgba App1.init "ok" 12 5 6 0 0
    (by decide) (by decide) rfl
  ⟨by simpa using h.2.1, h.2.2.1⟩

/-- C10 counterexample: after a cancelled resize dialog (`width` and
`height` are `None`), `clear_canvas` clears the canvas but `Image.new`
raises, so the backing image is not reset: it is still the RGBA image
holding the old stroke, not a fresh all-white RGB image. -/
theorem clear_canvas_none_size_counterexample :
    (App1.clear_canvas (App1.run App1.init cancelledResizeOps)).image.mode =
      ImageMode.RGBA ∧
    (App1.clear_canvas (App1.run App1.init cancelledResizeOps)).image.ops ≠ [] ∧
    (App1.clear_canvas (App1.run App1.init cancelledResizeOps)).canvasItems = [] := by
  decide

/-- C10 amended: in any state whose stored width and height are
non-negative integers (as always holds while no resize dialog has been
cancelled), `clear_canvas` resets the backing image to a fresh
all-white RGB image of the current width and height, clears the canvas,
resets the background colour to 'white' and re-activates the brush
(draw mode, pen colour restored from `last_color`). -/
theorem clear_canvas_resets_image :
    ∀ (s : App1.State) (w h : Int),
      s.width = some w → s.height = some h → 0 ≤ w → 0 ≤ h →
      (App1.clear_canvas s).image =
        { mode := ImageMode.RGB, w := w, h := h, base := "white", ops := [] } ∧
      (App1.clear_canvas s).bg_colour = some "white" ∧
      (App1.clear_canvas s).mode = Mode.draw ∧
      (App1.clear_canvas s).pen_color = s.last_color ∧
      (App1.clear_canvas s).canvasItems = [] ∧
      (App1.clear_canvas s).canvasBg = "white" := by
  intro s w h hW hH hw0 hh0
  refine ⟨?_, ?_, ?_, ?_, ?_, ?_⟩ <;>
    simp [App1.clear_canvas, App1.brush, hW, hH, hw0, hh0]

/-- C10 amended witness: clearing the freshly constructed application. -/
theorem clear_canvas_resets_image_witness :
    (App1.clear_canvas App1.init).image =
      { mode := ImageMode.RGB, w := 600, h := 400, base := "white", ops := [] } ∧
    (App1.clear_canvas App1.init).bg_colour = some "white" ∧
    (App1.clear_canvas App1.init).mode = Mode.draw :=
  have h := clear_canvas_resets_image App1.init 600 400 rfl rfl
    (by decide) (by decide)
  ⟨h.1, h.2.1, h.2.2.1⟩

end DrawingApp
